import Mathlib

/-!
Shallow embedding of the sidecar supervisor core of this repository
(src-tauri/src/lib.rs and src-tauri/src/commands.rs), together with
theorems settling the specification claims about it.

The Rust code consists of:
* `SidecarState { port: Option<u16> }` guarded by a `Mutex`, managed app state;
* a stdout drainer thread that, for each line, logs it and, when the line
  has the literal prefix `PORT:` and the remainder parses as a `u16`,
  stores the port into the registry;
* a stderr drainer thread that only logs lines;
* `get_sidecar_port`, returning the port or the error `"Sidecar not ready"`;
* `kill_sidecar`, which `take()`s a `Mutex<Option<CommandChild>>` slot and
  kills the taken child, tolerating absence;
* an exit hook (`RunEvent::Exit`) that kills the child held in the
  `Mutex<Option<std::process::Child>>` slot via `if let Some(ref mut child)`,
  leaving the handle in place, and silently returns on lock failure.
-/

namespace Verba

instance {ε α : Type} [DecidableEq ε] [DecidableEq α] : DecidableEq (Except ε α) :=
  fun a b =>
    match a, b with
    | .ok x, .ok y =>
      if h : x = y then isTrue (by rw [h]) else isFalse (by simp [h])
    | .error e, .error f =>
      if h : e = f then isTrue (by rw [h]) else isFalse (by simp [h])
    | .ok _, .error _ => isFalse (by simp)
    | .error _, .ok _ => isFalse (by simp)

/-- Model of a Rust `std::sync::Mutex` guarding a value: `poisoned` carries the
message with which a lock attempt fails (`e.to_string()` of the poison error);
`value` is the guarded datum, still present even while poisoned. -/
structure Mutex (α : Type) where
  poisoned : Option String
  value : α
  deriving DecidableEq, Repr

/-- `pub struct SidecarState { pub port: Option<u16> }` (commands.rs). The
port is a `Nat`; the parser only ever stores values `≤ 65535`. -/
structure SidecarState where
  port : Option Nat
  deriving DecidableEq, Repr

/-- The initial managed state `SidecarState { port: None }` (lib.rs line 20). -/
def initialSidecarState : SidecarState := ⟨none⟩

/-- One step of Rust's `str::parse::<u16>` digit loop: on accumulator `a` and
character `c`, requires an ASCII digit and checks u16 overflow
(`checked_mul` / `checked_add` against 65535). -/
def stepU16 (acc : Option Nat) (c : Char) : Option Nat :=
  match acc with
  | none => none
  | some a =>
    if c.isDigit then
      let v := a * 10 + (c.toNat - 48)
      if v ≤ 65535 then some v else none
    else none

/-- The digit-folding core of `str::parse::<u16>`: an empty digit string is an
error; otherwise fold the overflow-checked digit step. -/
def parseU16Core (cs : List Char) : Option Nat :=
  if cs = [] then none else cs.foldl stepU16 (some 0)

/-- Sign handling of Rust `str::parse::<u16>` on the character list of the
input: empty input fails; a leading `'+'` is stripped (then digits must
follow); a leading `'-'` fails for an unsigned type; otherwise every
character must be an ASCII digit and the value must fit in 16 bits. -/
def parseU16List : List Char → Option Nat
  | [] => none
  | c :: rest =>
    if c = '+' then parseU16Core rest
    else if c = '-' then none
    else parseU16Core (c :: rest)

/-- Model of Rust `str::parse::<u16>`. -/
def parseU16 (s : String) : Option Nat :=
  parseU16List s.data

/-- `takeAfter pat s` models Rust `s.strip_prefix(pat)` on character lists:
`some rest` when `s = pat ++ rest`, otherwise `none`. -/
def takeAfter : List Char → List Char → Option (List Char)
  | [], s => some s
  | _ :: _, [] => none
  | p :: ps, c :: cs => if p = c then takeAfter ps cs else none

/-- `line.strip_prefix("PORT:")` from the stdout drainer (lib.rs line 76). -/
def stripPortTag (line : String) : Option String :=
  (takeAfter "PORT:".data line.data).map String.mk

/-- The state effect of one iteration of the stdout drainer loop
(lib.rs lines 73-84): if the line has the `PORT:` prefix and its remainder
parses as a `u16`, store it in the registry; otherwise leave the registry
unchanged. -/
def processStdoutLine (st : SidecarState) (line : String) : SidecarState :=
  match stripPortTag line with
  | some rest =>
    match parseU16 rest with
    | some p => { st with port := some p }
    | none => st
  | none => st

/-- Whether the stdout drainer treats `line` as a discovery event
(both the prefix test and the `u16` parse succeed). -/
def isDiscovery (line : String) : Bool :=
  match stripPortTag line with
  | some rest => (parseU16 rest).isSome
  | none => false

/-- `get_sidecar_port` (commands.rs lines 9-12): lock the registry
(`map_err(|e| e.to_string())?`), then `port.ok_or_else(|| "Sidecar not ready")`. -/
def get_sidecar_port (m : Mutex SidecarState) : Except String Nat :=
  match m.poisoned with
  | some e => .error e
  | none =>
    match m.value.port with
    | some p => .ok p
    | none => .error "Sidecar not ready"

/-- A `tauri_plugin_shell::process::CommandChild` handle as `kill_sidecar`
sees it: `killResult` is the outcome the OS gives when `kill()` is invoked
on it. -/
structure CommandChild where
  killResult : Except String Unit
  deriving DecidableEq, Repr

/-- A `std::process::Child` handle as the exit hook sees it: `killResult`
is the outcome the OS gives when `kill()` is invoked on it. -/
structure Child where
  killResult : Except String Unit
  deriving DecidableEq, Repr

/-- Everything observable about one `kill_sidecar` call: its return value,
the slot it leaves behind, whether it invoked `kill()` on a process, and the
log lines it emitted. -/
structure KillOutcome where
  result : Except String Unit
  slot : Mutex (Option CommandChild)
  signalled : Bool
  logs : List String
  deriving DecidableEq, Repr

/-- `kill_sidecar` (commands.rs lines 15-24): lock the slot
(`map_err(|e| e.to_string())?`); `if let Some(child) = guard.take()` — the
take removes the handle from the slot before anything else — then
`child.kill().map_err(..)?` and on success log `"Sidecar killed for update"`;
an empty slot is `Ok(())` with no kill attempt. -/
def kill_sidecar (m : Mutex (Option CommandChild)) : KillOutcome :=
  match m.poisoned with
  | some e => ⟨.error e, m, false, []⟩
  | none =>
    match m.value with
    | some child =>
      match child.killResult with
      | .error e => ⟨.error e, { m with value := none }, true, []⟩
      | .ok _ => ⟨.ok (), { m with value := none }, true, ["Sidecar killed for update"]⟩
    | none => ⟨.ok (), m, false, []⟩

/-- Everything observable about one run of the `RunEvent::Exit` hook: the
slot it leaves behind, whether it invoked `kill()`, and the log lines it
emitted. -/
structure ExitOutcome where
  slot : Mutex (Option Child)
  signalled : Bool
  logs : List String
  deriving DecidableEq, Repr

/-- The `RunEvent::Exit` handler (lib.rs lines 98-110): on lock failure
(`Err(_) => return`) it returns at once, emitting nothing; otherwise
`if let Some(ref mut child) = *guard` it calls `child.kill()` (result
discarded) and logs `"Sidecar process killed"`, leaving the handle in the
slot; an empty slot does nothing. -/
def exitHookOnExit (m : Mutex (Option Child)) : ExitOutcome :=
  match m.poisoned with
  | some _ => ⟨m, false, []⟩
  | none =>
    match m.value with
    | some _ => ⟨m, true, ["Sidecar process killed"]⟩
    | none => ⟨m, false, []⟩

/-- The log effect of one iteration of the stderr drainer loop
(lib.rs lines 60-67): an `Ok` line is logged with the `[sidecar stderr] `
tag, a read error is skipped; nothing else happens. -/
def processStderrLine (l : Except String String) : List String :=
  match l with
  | .ok line => ["[sidecar stderr] " ++ line]
  | .error _ => []

/-- The whole shared mutable state of the application: the port registry,
the `Mutex<Option<std::process::Child>>` slot the supervisor stores the
spawned child into, the `Mutex<Option<CommandChild>>` slot `kill_sidecar`
addresses, and the accumulated log. -/
structure System where
  sidecar : Mutex SidecarState
  childSlot : Mutex (Option Child)
  cmdChildSlot : Mutex (Option CommandChild)
  logs : List String
  deriving DecidableEq, Repr

/-- The operations that can touch the shared state: one stdout drainer
iteration, one stderr drainer iteration, the port query command, the
force-kill command, and the application-exit hook. -/
inductive Op where
  | stdoutLine (l : Except String String)
  | stderrLine (l : Except String String)
  | queryPort
  | forceKill
  | appExit
  deriving DecidableEq, Repr

/-- One transition of the shared state. The stdout drainer logs the line,
then `lock().unwrap()`s the registry — if that lock is poisoned the drainer
thread panics and the registry is left untouched. `queryPort` only reads.
`forceKill` runs `kill_sidecar` on its slot; `appExit` runs the exit hook
on the supervisor's slot. -/
def stepSystem (sys : System) (op : Op) : System :=
  match op with
  | .stdoutLine l =>
    match l with
    | .error _ => sys
    | .ok line =>
      match sys.sidecar.poisoned with
      | some _ => { sys with logs := sys.logs ++ ["[sidecar stdout] " ++ line] }
      | none =>
        { sys with
          sidecar := { sys.sidecar with value := processStdoutLine sys.sidecar.value line },
          logs := sys.logs ++ ["[sidecar stdout] " ++ line] }
  | .stderrLine l => { sys with logs := sys.logs ++ processStderrLine l }
  | .queryPort => sys
  | .forceKill =>
    let k := kill_sidecar sys.cmdChildSlot
    { sys with cmdChildSlot := k.slot, logs := sys.logs ++ k.logs }
  | .appExit =>
    let e := exitHookOnExit sys.childSlot
    { sys with childSlot := e.slot, logs := sys.logs ++ e.logs }

/-- Tauri managed state is keyed by type. These are the state types the
program mentions: `Mutex<SidecarState>`, `Mutex<Option<std::process::Child>>`
and `Mutex<Option<tauri_plugin_shell::process::CommandChild>>`. -/
inductive StateKey where
  | sidecarStateKey
  | stdChildKey
  | shellCommandChildKey
  deriving DecidableEq, Repr

/-- The state types `run` actually manages (lib.rs lines 20-21):
`Mutex<SidecarState>` and `Mutex<Option<std::process::Child>>`. -/
def managedStates : List StateKey := [.sidecarStateKey, .stdChildKey]

/-- The slot the supervisor stores the spawned child into
(lib.rs lines 89-91): the managed `Mutex<Option<std::process::Child>>`. -/
def spawnStoreKey : StateKey := .stdChildKey

/-- The state type `kill_sidecar`'s signature requests (commands.rs line 16):
`Mutex<Option<tauri_plugin_shell::process::CommandChild>>`. -/
def killCommandStateKey : StateKey := .shellCommandChildKey

/-- The commands registered with `tauri::generate_handler!`
(lib.rs line 22): only `get_sidecar_port`. -/
def registeredCommands : List String := ["get_sidecar_port"]

/-- Fuel-driven construction of the decimal numeral of `n`, most significant
digit first; any `fuel > n` is enough. -/
def decDigitsAux (fuel n : Nat) : List Char :=
  match fuel with
  | 0 => []
  | fuel + 1 =>
    if n < 10 then [Char.ofNat (48 + n)]
    else decDigitsAux fuel (n / 10) ++ [Char.ofNat (48 + n % 10)]

/-- The decimal numeral of `n`, least significant digit written last: the
form `<n>` takes on the wire in a discovery line `PORT:<n>`. -/
def decDigits (n : Nat) : List Char := decDigitsAux (n + 1) n

example : parseU16 "54321" = some 54321 := by decide
example : parseU16 "70000" = none := by decide
example : parseU16 "+80" = some 80 := by decide
example : parseU16 "-1" = none := by decide
example : parseU16 "" = none := by decide
example : parseU16 "12a" = none := by decide
example : stripPortTag "PORT:8080" = some "8080" := by decide
example : stripPortTag "port:8080" = none := by decide
example : processStdoutLine ⟨none⟩ "PORT:8080" = ⟨some 8080⟩ := by decide
example : processStdoutLine ⟨some 3⟩ "PORT:99999" = ⟨some 3⟩ := by decide
example : decDigits 54321 = ['5', '4', '3', '2', '1'] := by decide

/-! ### Decimal numerals parse back to their value -/

lemma digitChar_isDigit {d : Nat} (h : d < 10) :
    (Char.ofNat (48 + d)).isDigit = true := by
  interval_cases d <;> decide

lemma digitChar_toNat {d : Nat} (h : d < 10) :
    (Char.ofNat (48 + d)).toNat = 48 + d := by
  interval_cases d <;> decide

lemma stepU16_digit {a d : Nat} (hd : d < 10) (hle : a * 10 + d ≤ 65535) :
    stepU16 (some a) (Char.ofNat (48 + d)) = some (a * 10 + d) := by
  have hsub : 48 + d - 48 = d := by omega
  simp only [stepU16, digitChar_isDigit hd, digitChar_toNat hd, if_true, hsub]
  simp [hle]

lemma decDigitsAux_ne_nil {fuel n : Nat} (h : n < fuel) :
    decDigitsAux fuel n ≠ [] := by
  cases fuel with
  | zero => omega
  | succ f =>
    unfold decDigitsAux
    by_cases h10 : n < 10
    · simp [h10]
    · rw [if_neg h10]
      intro hc
      exact absurd (List.append_eq_nil.mp hc).2 (by simp)

lemma decDigitsAux_mem_isDigit :
    ∀ fuel n, n < fuel → ∀ c ∈ decDigitsAux fuel n, c.isDigit = true := by
  intro fuel
  induction fuel with
  | zero => intro n h; omega
  | succ f ih =>
    intro n hlt c hc
    unfold decDigitsAux at hc
    by_cases h10 : n < 10
    · rw [if_pos h10] at hc
      simp only [List.mem_singleton] at hc
      subst hc
      exact digitChar_isDigit h10
    · rw [if_neg h10, List.mem_append] at hc
      rcases hc with hc | hc
      · have hdiv : n / 10 < f := by
          have := Nat.div_lt_self (show 0 < n by omega) (show 1 < 10 by omega)
          omega
        exact ih (n / 10) hdiv c hc
      · simp only [List.mem_singleton] at hc
        subst hc
        exact digitChar_isDigit (Nat.mod_lt _ (by omega))

lemma foldl_stepU16_decDigitsAux :
    ∀ fuel n, n < fuel → n ≤ 65535 →
      List.foldl stepU16 (some 0) (decDigitsAux fuel n) = some n := by
  intro fuel
  induction fuel with
  | zero => intro n h _; omega
  | succ f ih =>
    intro n hlt hle
    unfold decDigitsAux
    by_cases h10 : n < 10
    · simp only [if_pos h10, List.foldl_cons, List.foldl_nil]
      have hstep := stepU16_digit (a := 0) h10 (by omega)
      simpa using hstep
    · rw [if_neg h10, List.foldl_append]
      have hdiv : n / 10 < f := by
        have := Nat.div_lt_self (show 0 < n by omega) (show 1 < 10 by omega)
        omega
      rw [ih (n / 10) hdiv (by omega)]
      simp only [List.foldl_cons, List.foldl_nil]
      have hmod : n % 10 < 10 := Nat.mod_lt _ (by omega)
      rw [stepU16_digit hmod (by omega)]
      congr 1
      omega

lemma parseU16Core_decDigits {n : Nat} (h : n ≤ 65535) :
    parseU16Core (decDigits n) = some n := by
  unfold parseU16Core decDigits
  rw [if_neg (decDigitsAux_ne_nil (Nat.lt_succ_self n))]
  exact foldl_stepU16_decDigitsAux (n + 1) n (Nat.lt_succ_self n) h

lemma parseU16_decDigits {n : Nat} (h : n ≤ 65535) :
    parseU16 (String.mk (decDigits n)) = some n := by
  have hne : decDigits n ≠ [] := decDigitsAux_ne_nil (Nat.lt_succ_self n)
  obtain ⟨c, cs, hcons⟩ := List.exists_cons_of_ne_nil hne
  have hdig : c.isDigit = true := by
    apply decDigitsAux_mem_isDigit (n + 1) n (Nat.lt_succ_self n)
    show c ∈ decDigits n
    rw [hcons]
    simp
  have hplus : ¬(c = '+') := by
    intro he
    rw [he] at hdig
    exact absurd hdig (by decide)
  have hminus : ¬(c = '-') := by
    intro he
    rw [he] at hdig
    exact absurd hdig (by decide)
  show parseU16List (decDigits n) = some n
  rw [hcons]
  simp only [parseU16List, if_neg hplus, if_neg hminus]
  rw [← hcons]
  exact parseU16Core_decDigits h

lemma takeAfter_append (p s : List Char) : takeAfter p (p ++ s) = some s := by
  induction p with
  | nil => rfl
  | cons c cs ih => simp [takeAfter, ih]

/-! ### Frame lemmas for the stdout drainer -/

lemma processStdoutLine_frame {st : SidecarState} {line : String}
    (h : isDiscovery line = false) : processStdoutLine st line = st := by
  unfold isDiscovery at h
  unfold processStdoutLine
  cases hs : stripPortTag line with
  | none => rfl
  | some rest =>
    rw [hs] at h
    have h2 : (parseU16 rest).isSome = false := h
    show (match parseU16 rest with
          | some p => { st with port := some p }
          | none => st) = st
    cases hp : parseU16 rest with
    | none => rfl
    | some p =>
      rw [hp] at h2
      exact absurd h2 (by simp)

lemma processStdoutLine_preserves_some {st : SidecarState} {line : String} {p : Nat}
    (h : st.port = some p) : ∃ q, (processStdoutLine st line).port = some q := by
  unfold processStdoutLine
  cases hs : stripPortTag line with
  | none => exact ⟨p, h⟩
  | some rest =>
    show ∃ q, (match parseU16 rest with
               | some p => { st with port := some p }
               | none => st).port = some q
    cases hp : parseU16 rest with
    | none => exact ⟨p, h⟩
    | some v => exact ⟨v, rfl⟩

lemma foldl_processStdoutLine_frame {lines : List String}
    (h : ∀ l ∈ lines, isDiscovery l = false) (st : SidecarState) :
    lines.foldl processStdoutLine st = st := by
  induction lines generalizing st with
  | nil => rfl
  | cons l ls ih =>
    rw [List.foldl_cons, processStdoutLine_frame (h l (by simp))]
    exact ih (fun x hx => h x (by simp [hx])) st

/-! ### Claim theorems -/

/-- C1: for every stdout line of the form `PORT:<n>` with `0 ≤ n ≤ 65535`,
after the stdout drainer processes that line, the Port Registry holds `n`
and `get_sidecar_port` returns `n`. -/
theorem C1_discovery_line_sets_port (st : SidecarState) (n : Nat) (h : n ≤ 65535) :
    (processStdoutLine st ("PORT:" ++ String.mk (decDigits n))).port = some n ∧
    get_sidecar_port ⟨none, processStdoutLine st ("PORT:" ++ String.mk (decDigits n))⟩ =
      .ok n := by
  have hdata : ("PORT:" ++ String.mk (decDigits n)).data = "PORT:".data ++ decDigits n := rfl
  have hstrip : stripPortTag ("PORT:" ++ String.mk (decDigits n)) =
      some (String.mk (decDigits n)) := by
    unfold stripPortTag
    rw [hdata, takeAfter_append]
    rfl
  have hproc : processStdoutLine st ("PORT:" ++ String.mk (decDigits n)) =
      { st with port := some n } := by
    unfold processStdoutLine
    rw [hstrip]
    show (match parseU16 (String.mk (decDigits n)) with
          | some p => { st with port := some p }
          | none => st) = { st with port := some n }
    rw [parseU16_decDigits h]
  rw [hproc]
  exact ⟨rfl, rfl⟩

/-- Witness for C1 at `n = 54321` on an empty registry. -/
theorem C1_discovery_line_sets_port_witness :
    54321 ≤ 65535 ∧
    ((processStdoutLine ⟨none⟩ ("PORT:" ++ String.mk (decDigits 54321))).port = some 54321 ∧
     get_sidecar_port ⟨none, processStdoutLine ⟨none⟩ ("PORT:" ++ String.mk (decDigits 54321))⟩ =
       .ok 54321) :=
  ⟨by decide, C1_discovery_line_sets_port ⟨none⟩ 54321 (by decide)⟩

/-- C6: a stdout line without the literal `PORT:` prefix, or with a suffix
that does not parse as a `u16` (non-numeric or out of range), leaves the
Port Registry unchanged. -/
theorem C6_non_discovery_leaves_registry (st : SidecarState) (line : String)
    (h : stripPortTag line = none ∨
         ∃ rest, stripPortTag line = some rest ∧ parseU16 rest = none) :
    processStdoutLine st line = st := by
  apply processStdoutLine_frame
  unfold isDiscovery
  rcases h with h | ⟨rest, h1, h2⟩
  · rw [h]
  · rw [h1]
    show (parseU16 rest).isSome = false
    rw [h2]
    rfl

/-- Witness for C6 on the out-of-range line `PORT:99999`. -/
theorem C6_non_discovery_leaves_registry_witness :
    (stripPortTag "PORT:99999" = none ∨
     ∃ rest, stripPortTag "PORT:99999" = some rest ∧ parseU16 rest = none) ∧
    processStdoutLine ⟨some 8080⟩ "PORT:99999" = ⟨some 8080⟩ :=
  ⟨Or.inr ⟨"99999", by decide, by decide⟩,
   C6_non_discovery_leaves_registry ⟨some 8080⟩ "PORT:99999"
     (Or.inr ⟨"99999", by decide, by decide⟩)⟩

/-- C5: as long as no discovery line has been processed (the registry is
still at its initial empty value), `get_sidecar_port` returns the error
`"Sidecar not ready"` and never a port value such as `0`. -/
theorem C5_not_ready_before_discovery (lines : List String)
    (h : ∀ l ∈ lines, isDiscovery l = false) :
    get_sidecar_port ⟨none, lines.foldl processStdoutLine initialSidecarState⟩ =
      .error "Sidecar not ready" ∧
    ∀ v : Nat,
      get_sidecar_port ⟨none, lines.foldl processStdoutLine initialSidecarState⟩ ≠ .ok v := by
  rw [foldl_processStdoutLine_frame h initialSidecarState]
  refine ⟨rfl, fun v hv => ?_⟩
  simp [get_sidecar_port, initialSidecarState] at hv

/-- Witness for C5 on two non-discovery lines. -/
theorem C5_not_ready_before_discovery_witness :
    (∀ l ∈ ["hello", "PORT:abc"], isDiscovery l = false) ∧
    get_sidecar_port
      ⟨none, (["hello", "PORT:abc"]).foldl processStdoutLine initialSidecarState⟩ =
      .error "Sidecar not ready" :=
  ⟨by decide, (C5_not_ready_before_discovery ["hello", "PORT:abc"] (by decide)).1⟩

/-- C7: once the registry holds a port, no operation of the system (stdout
or stderr drainer step, port query, force kill, exit hook) ever takes it
back to empty: after any step it still holds some port. -/
theorem C7_port_never_reset (sys : System) (op : Op) (p : Nat)
    (h : sys.sidecar.value.port = some p) :
    ∃ q, (stepSystem sys op).sidecar.value.port = some q := by
  cases op with
  | stdoutLine l =>
    cases l with
    | error e => exact ⟨p, h⟩
    | ok line =>
      simp only [stepSystem]
      cases hpoison : sys.sidecar.poisoned with
      | some e => exact ⟨p, h⟩
      | none => exact processStdoutLine_preserves_some h
  | stderrLine l => exact ⟨p, h⟩
  | queryPort => exact ⟨p, h⟩
  | forceKill => exact ⟨p, h⟩
  | appExit => exact ⟨p, h⟩

/-- Witness for C7: a system whose registry holds 8080, stepped through the
exit hook, still holds a port. -/
theorem C7_port_never_reset_witness :
    (System.mk ⟨none, ⟨some 8080⟩⟩ ⟨none, none⟩ ⟨none, none⟩ []).sidecar.value.port =
      some 8080 ∧
    ∃ q, (stepSystem (System.mk ⟨none, ⟨some 8080⟩⟩ ⟨none, none⟩ ⟨none, none⟩ [])
            Op.appExit).sidecar.value.port = some q :=
  ⟨rfl, C7_port_never_reset _ Op.appExit 8080 rfl⟩

/-- C9: a stderr drainer step never touches the Port Registry, whatever the
line says — in particular a stderr line of the exact form `PORT:54321`
leaves the registry (and its mutex) unchanged. -/
theorem C9_stderr_never_parsed (sys : System) (l : Except String String) :
    (stepSystem sys (Op.stderrLine l)).sidecar = sys.sidecar ∧
    (stepSystem sys (Op.stderrLine (.ok "PORT:54321"))).sidecar = sys.sidecar :=
  ⟨rfl, rfl⟩

/-- Counterexample to C2: the exit hook is a kill path that signals the
child (`child.kill()`) while leaving the handle in the shared slot — with a
live handle in a healthy mutex, after the hook runs the handle is still
present, so not every kill path removes the handle before signalling. -/
theorem C2_exit_hook_keeps_handle :
    (exitHookOnExit ⟨none, some ⟨Except.ok ()⟩⟩).signalled = true ∧
    (exitHookOnExit ⟨none, some ⟨Except.ok ()⟩⟩).slot.value = some ⟨Except.ok ()⟩ :=
  ⟨rfl, rfl⟩

/-- C2 (amended): the manual force-kill path (`kill_sidecar`) removes the
handle from its slot before signalling, and a second `kill_sidecar` on the
resulting slot signals nothing; the exit hook, by contrast, signals the
child while leaving the handle present in its slot. -/
theorem C2_amended_kill_path_disposition
    (mc : Mutex (Option CommandChild)) (c : CommandChild)
    (m : Mutex (Option Child)) (d : Child)
    (h1 : mc.poisoned = none) (h2 : mc.value = some c)
    (h3 : m.poisoned = none) (h4 : m.value = some d) :
    (kill_sidecar mc).slot.value = none ∧
    (kill_sidecar mc).signalled = true ∧
    (kill_sidecar (kill_sidecar mc).slot).signalled = false ∧
    (exitHookOnExit m).slot.value = some d ∧
    (exitHookOnExit m).signalled = true := by
  obtain ⟨mp, mv⟩ := mc
  obtain ⟨np, nv⟩ := m
  have h1' : mp = none := h1
  have h2' : mv = some c := h2
  have h3' : np = none := h3
  have h4' : nv = some d := h4
  subst h1' h2' h3' h4'
  obtain ⟨kr⟩ := c
  cases kr with
  | ok u => exact ⟨rfl, rfl, rfl, rfl, rfl⟩
  | error e => exact ⟨rfl, rfl, rfl, rfl, rfl⟩

/-- Witness for the amended C2 on healthy mutexes holding live handles. -/
theorem C2_amended_kill_path_disposition_witness :
    ((⟨none, some ⟨Except.ok ()⟩⟩ : Mutex (Option CommandChild)).poisoned = none ∧
     (⟨none, some ⟨Except.ok ()⟩⟩ : Mutex (Option CommandChild)).value = some ⟨Except.ok ()⟩ ∧
     (⟨none, some ⟨Except.ok ()⟩⟩ : Mutex (Option Child)).poisoned = none ∧
     (⟨none, some ⟨Except.ok ()⟩⟩ : Mutex (Option Child)).value = some ⟨Except.ok ()⟩) ∧
    ((kill_sidecar ⟨none, some ⟨Except.ok ()⟩⟩).slot.value = none ∧
     (kill_sidecar ⟨none, some ⟨Except.ok ()⟩⟩).signalled = true ∧
     (kill_sidecar (kill_sidecar ⟨none, some ⟨Except.ok ()⟩⟩).slot).signalled = false ∧
     (exitHookOnExit ⟨none, some ⟨Except.ok ()⟩⟩).slot.value = some ⟨Except.ok ()⟩ ∧
     (exitHookOnExit ⟨none, some ⟨Except.ok ()⟩⟩).signalled = true) :=
  ⟨⟨rfl, rfl, rfl, rfl⟩,
   C2_amended_kill_path_disposition ⟨none, some ⟨Except.ok ()⟩⟩ ⟨Except.ok ()⟩
     ⟨none, some ⟨Except.ok ()⟩⟩ ⟨Except.ok ()⟩ rfl rfl rfl rfl⟩

/-- C3: calling `kill_sidecar` twice in sequence on a healthy slot holding
a live handle whose kill succeeds: both calls return `Ok`, the process is
signalled exactly once, and the second call finds the slot already empty
and is a no-op. -/
theorem C3_kill_twice_idempotent (m : Mutex (Option CommandChild)) (c : CommandChild)
    (h1 : m.poisoned = none) (h2 : m.value = some c) (h3 : c.killResult = .ok ()) :
    (kill_sidecar m).result = .ok () ∧
    (kill_sidecar m).signalled = true ∧
    (kill_sidecar m).slot.value = none ∧
    (kill_sidecar (kill_sidecar m).slot).result = .ok () ∧
    (kill_sidecar (kill_sidecar m).slot).signalled = false := by
  obtain ⟨mp, mv⟩ := m
  have h1' : mp = none := h1
  have h2' : mv = some c := h2
  subst h1' h2'
  obtain ⟨kr⟩ := c
  have h3' : kr = .ok () := h3
  subst h3'
  exact ⟨rfl, rfl, rfl, rfl, rfl⟩

/-- Witness for C3 on a concrete healthy slot. -/
theorem C3_kill_twice_idempotent_witness :
    ((⟨none, some ⟨Except.ok ()⟩⟩ : Mutex (Option CommandChild)).poisoned = none ∧
     (⟨none, some ⟨Except.ok ()⟩⟩ : Mutex (Option CommandChild)).value = some ⟨Except.ok ()⟩ ∧
     (⟨Except.ok ()⟩ : CommandChild).killResult = .ok ()) ∧
    ((kill_sidecar ⟨none, some ⟨Except.ok ()⟩⟩).result = .ok () ∧
     (kill_sidecar ⟨none, some ⟨Except.ok ()⟩⟩).signalled = true ∧
     (kill_sidecar ⟨none, some ⟨Except.ok ()⟩⟩).slot.value = none ∧
     (kill_sidecar (kill_sidecar ⟨none, some ⟨Except.ok ()⟩⟩).slot).result = .ok () ∧
     (kill_sidecar (kill_sidecar ⟨none, some ⟨Except.ok ()⟩⟩).slot).signalled = false) :=
  ⟨⟨rfl, rfl, rfl⟩,
   C3_kill_twice_idempotent ⟨none, some ⟨Except.ok ()⟩⟩ ⟨Except.ok ()⟩ rfl rfl rfl⟩

/-- C4, evaluated on the code: the state slot `kill_sidecar` addresses
(`Mutex<Option<tauri_plugin_shell::process::CommandChild>>`) is not the
slot the supervisor stores the spawned child into
(`Mutex<Option<std::process::Child>>`), that slot type is never managed by
`run`, and `kill_sidecar` is not even registered in `generate_handler!`;
the take-and-tolerate-absence behaviour does hold of `kill_sidecar`'s own
slot. -/
theorem C4_force_kill_slot_mismatch :
    killCommandStateKey ≠ spawnStoreKey ∧
    killCommandStateKey ∉ managedStates ∧
    "kill_sidecar" ∉ registeredCommands ∧
    (kill_sidecar ⟨none, none⟩).result = .ok () ∧
    (kill_sidecar ⟨none, none⟩).signalled = false := by
  refine ⟨by decide, by decide, by decide, rfl, rfl⟩

/-- Counterexample to C8: on a poisoned child-handle lock the exit hook
returns without emitting any log line (the `Err(_) => return` arm logs
nothing), so the lock failure is not logged. -/
theorem C8_poisoned_exit_hook_logs_nothing :
    (exitHookOnExit ⟨some "poison", some ⟨Except.ok ()⟩⟩).logs = [] ∧
    (exitHookOnExit ⟨some "poison", some ⟨Except.ok ()⟩⟩).signalled = false :=
  ⟨rfl, rfl⟩

/-- C8 (amended): when the exit hook fails to acquire the lock on the child
handle it returns immediately — without signalling, without logging, and
without panicking (it is a total function leaving the mutex unchanged). -/
theorem C8_amended_poisoned_exit_hook_returns (m : Mutex (Option Child)) (e : String)
    (h : m.poisoned = some e) :
    exitHookOnExit m = ⟨m, false, []⟩ := by
  obtain ⟨mp, mv⟩ := m
  have h' : mp = some e := h
  subst h'
  rfl

/-- Witness for the amended C8 on a concrete poisoned mutex. -/
theorem C8_amended_poisoned_exit_hook_returns_witness :
    (⟨some "poison", some ⟨Except.ok ()⟩⟩ : Mutex (Option Child)).poisoned = some "poison" ∧
    exitHookOnExit ⟨some "poison", some ⟨Except.ok ()⟩⟩ =
      ⟨⟨some "poison", some ⟨Except.ok ()⟩⟩, false, []⟩ :=
  ⟨rfl, C8_amended_poisoned_exit_hook_returns ⟨some "poison", some ⟨Except.ok ()⟩⟩ "poison" rfl⟩

/-- C10: when the handle is present and the OS-level kill fails,
`kill_sidecar` returns that error but the handle has already been taken out
of the slot, so the operation is not atomic on error; a retry observes the
empty slot and no-ops with `Ok`, signalling nothing. -/
theorem C10_kill_failure_not_atomic (m : Mutex (Option CommandChild)) (c : CommandChild)
    (e : String)
    (h1 : m.poisoned = none) (h2 : m.value = some c) (h3 : c.killResult = .error e) :
    (kill_sidecar m).result = .error e ∧
    (kill_sidecar m).slot.value = none ∧
    (kill_sidecar m).signalled = true ∧
    (kill_sidecar (kill_sidecar m).slot).result = .ok () ∧
    (kill_sidecar (kill_sidecar m).slot).signalled = false := by
  obtain ⟨mp, mv⟩ := m
  have h1' : mp = none := h1
  have h2' : mv = some c := h2
  subst h1' h2'
  obtain ⟨kr⟩ := c
  have h3' : kr = .error e := h3
  subst h3'
  exact ⟨rfl, rfl, rfl, rfl, rfl⟩

/-- Witness for C10 with a concrete failing kill. -/
theorem C10_kill_failure_not_atomic_witness :
    ((⟨none, some ⟨Except.error "no such process"⟩⟩ :
        Mutex (Option CommandChild)).poisoned = none ∧
     (⟨none, some ⟨Except.error "no such process"⟩⟩ :
        Mutex (Option CommandChild)).value = some ⟨Except.error "no such process"⟩ ∧
     (⟨Except.error "no such process"⟩ : CommandChild).killResult =
       .error "no such process") ∧
    ((kill_sidecar ⟨none, some ⟨Except.error "no such process"⟩⟩).result =
       .error "no such process" ∧
     (kill_sidecar ⟨none, some ⟨Except.error "no such process"⟩⟩).slot.value = none ∧
     (kill_sidecar ⟨none, some ⟨Except.error "no such process"⟩⟩).signalled = true ∧
     (kill_sidecar (kill_sidecar ⟨none, some ⟨Except.error "no such process"⟩⟩).slot).result =
       .ok () ∧
     (kill_sidecar
        (kill_sidecar ⟨none, some ⟨Except.error "no such process"⟩⟩).slot).signalled =
       false) :=
  ⟨⟨rfl, rfl, rfl⟩,
   C10_kill_failure_not_atomic ⟨none, some ⟨Except.error "no such process"⟩⟩
     ⟨Except.error "no such process"⟩ "no such process" rfl rfl rfl⟩

end Verba
